import Mathlib

/-!
Verification of the CAMEL discussion engine against its specification.

This file gives a shallow embedding, in Lean 4, of the parts of the
repository that the checked claims are about:

* `src/camel_engine/consensus.py`   — consensus evaluator and stalemate heuristic;
* `src/camel_engine/orchestrator.py`— the discussion turn loop, speaker selection,
  agent-message generation, result generation;
* `src/camel_engine/role_creator.py`— role synthesis and model assignment;
* `src/camel_engine/llm_provider.py`— the gateway client `chat_completion`;
* `src/api/routes/discussions.py`   — the `send_message` route handler and the
  terminal-status write of `run_discussion_background`.

Conventions of the embedding:

* Python floats used for confidences and thresholds are modelled as rationals
  (the values occurring in the code are small decimals; the one comparison with
  the float literal `0.7` is rewritten over naturals by cross-multiplication,
  which is exact for the tiny ratios that occur).
* Every outbound LLM call is an oracle parameter: `Option`/`Except` values
  standing for the outcome the gateway produced (`none`/`error` = the Python
  call raised).  The functions below are the code around those calls,
  translated statement by statement.
* Wall-clock fields (`created_at`, `updated_at`, `duration_seconds`) and the
  uuid `discussion_id` are dropped: no claim mentions them.
* Python `str.lower` / `str.split()` / `str.strip()` / substring tests are
  re-implemented over character lists (`lowerStr`, `splitWords`, `trimStr`,
  `infixOfSeq`) because Lean `String` primitives do not reduce in the kernel;
  the re-implementations have the same behaviour on the ASCII data involved.
-/

/-- Python `str.lower()` (ASCII range, which is all the code relies on). -/
def lowerStr (s : String) : String := ⟨s.data.map Char.toLower⟩

/-- Accumulator pass behind `splitWords`. -/
def wordsAux : List Char → List Char → List String
  | [], acc => if acc.isEmpty then [] else [⟨acc.reverse⟩]
  | c :: cs, acc =>
      if c.isWhitespace then
        (if acc.isEmpty then wordsAux cs [] else (⟨acc.reverse⟩ : String) :: wordsAux cs [])
      else wordsAux cs (c :: acc)

/-- Python `str.split()` with no argument: split on whitespace runs, no empty pieces. -/
def splitWords (s : String) : List String := wordsAux s.data []

/-- Sequence-prefix test over raw character lists. -/
def startsWithSeq : List Char → List Char → Bool
  | [], _ => true
  | _ :: _, [] => false
  | a :: as, b :: bs => a == b && startsWithSeq as bs

/-- Python `needle in haystack` for strings, over raw character lists. -/
def infixOfSeq : List Char → List Char → Bool
  | needle, [] => needle.isEmpty
  | needle, c :: cs => startsWithSeq needle (c :: cs) || infixOfSeq needle cs

/-- Python `a in b` on strings. -/
def strContains (haystack needle : String) : Bool := infixOfSeq needle.data haystack.data

/-- Python `str.strip()`: drop leading and trailing whitespace. -/
def trimStr (s : String) : String :=
  ⟨((s.data.dropWhile Char.isWhitespace).reverse.dropWhile Char.isWhitespace).reverse⟩

/-- The rational 3/10 (the stalemate snapshot confidence `0.3`). -/
def q3_10 : ℚ := ⟨3, 10, by norm_num, by norm_num⟩

/-- The rational 1/2 (the neutral fallback confidence `0.5`). -/
def q1_2 : ℚ := ⟨1, 2, by norm_num, by norm_num⟩

/-- The rational 17/20 (the default consensus threshold `0.85`). -/
def q17_20 : ℚ := ⟨17, 20, by norm_num, by norm_num⟩

/-- The rational 1/5 (a low confidence `0.2` used in concrete runs). -/
def q1_5 : ℚ := ⟨1, 5, by norm_num, by norm_num⟩

/-!  ## Consensus evaluator (`src/camel_engine/consensus.py`)  -/

/-- `consensus.Message`: the typed record the evaluator receives. -/
structure Message where
  role_name : String
  content : String
  turn_number : Nat
  deriving DecidableEq, Repr

/-- `consensus.ConsensusResult` (pydantic model). -/
structure ConsensusResult where
  reached : Bool
  confidence : ℚ
  summary : String
  agreements : List String
  disagreements : List String
  recommendation : String
  deriving DecidableEq, Repr

/-- One unordered pair of the stalemate loop, `consensus.py` lines 215-230:
word-set Jaccard similarity strictly above the float `0.7`.  Pairs where either
word set is empty are skipped (`continue`).  Over naturals,
`inter / union > 7/10` is exactly `10 * inter > 7 * union`; the float literal
`0.7` differs from 7/10 only beyond 16 decimal digits, unreachable by ratios of
word counts. -/
def jaccardSimilarPair (a b : String) : Bool :=
  let wi := (splitWords (lowerStr a)).dedup
  let wj := (splitWords (lowerStr b)).dedup
  if wi.length = 0 ∨ wj.length = 0 then false
  else
    let inter := (wi.filter (fun w => wj.contains w)).length
    let union := (wi ++ wj.filter (fun w => !wi.contains w)).length
    10 * inter > 7 * union

/-- The double loop of `detect_stalemate`: number of unordered pairs `(i, j)`,
`i < j`, whose contents are Jaccard-similar. -/
def countSimilarPairs : List String → Nat
  | [] => 0
  | c :: rest => (rest.filter (fun d => jaccardSimilarPair c d)).length + countSimilarPairs rest

/-- `ConsensusDetector.detect_stalemate`, `consensus.py` lines 192-233:
fewer than 6 messages is never a stalemate; otherwise count Jaccard-similar
pairs among the lowercased contents of the last 6 messages and report a
stalemate when more than 2 pairs are similar. -/
def detect_stalemate (messages : List Message) : Bool :=
  if messages.length < 6 then false
  else
    countSimilarPairs
      ((messages.drop (messages.length - 6)).map (fun m => lowerStr m.content)) > 2

/-- The parsed JSON object the consensus-analysis LLM call returns
(`confidence`, `summary`, `agreements`, `disagreements`). -/
structure AnalysisResponse where
  confidence : ℚ
  summary : String
  agreements : List String
  disagreements : List String
  deriving DecidableEq, Repr

/-- The `except` branch of `analyze_consensus`, `consensus.py` lines 180-190. -/
def fallback_consensus : ConsensusResult :=
  { reached := false
    confidence := q1_2
    summary := "Unable to analyze consensus reliably"
    agreements := []
    disagreements := ["Analysis error"]
    recommendation := "continue" }

/-- `ConsensusDetector.analyze_consensus`, `consensus.py` lines 116-190.
`llm` is the outcome of `chat_completion_structured` (`none` = the call
raised).  A returned confidence outside [0, 1] makes the pydantic constructor
raise inside the `try`, which also lands in the fallback.  The last 10
messages and the topic only shape the prompt, not the result. -/
def analyze_consensus (threshold : ℚ) (llm : Option AnalysisResponse)
    (_messages : List Message) (_topic : String) : ConsensusResult :=
  match llm with
  | some r =>
      if 0 ≤ r.confidence ∧ r.confidence ≤ 1 then
        { reached := decide (threshold ≤ r.confidence)
          confidence := r.confidence
          summary := r.summary
          agreements := r.agreements
          disagreements := r.disagreements
          recommendation := "continue" }
      else fallback_consensus
  | none => fallback_consensus

/-- `ConsensusDetector.check_consensus`, `consensus.py` lines 50-114:
an early snapshot below 3 messages, the stalemate snapshot, and otherwise the
LLM analysis with the recommendation recomputed from the threshold, the turn
cap and the remaining disagreements.  Note the code overwrites only the
`recommendation` field of the analysis, never its `reached` field. -/
def check_consensus (threshold : ℚ) (llm : Option AnalysisResponse)
    (messages : List Message) (topic : String) (current_turn max_turns : Nat) :
    ConsensusResult :=
  if messages.length < 3 then
    { reached := false
      confidence := 0
      summary := "Discussion just started, need more exchanges"
      agreements := []
      disagreements := []
      recommendation := "continue" }
  else if detect_stalemate messages then
    { reached := false
      confidence := q3_10
      summary := "Discussion appears stuck in circular arguments"
      agreements := []
      disagreements := ["Repeated arguments without progress"]
      recommendation := "escalate" }
  else
    let analysis := analyze_consensus threshold llm messages topic
    let reachedNow := decide (threshold ≤ analysis.confidence)
    let newRec :=
      if reachedNow then "conclude"
      else if max_turns ≤ current_turn then "conclude"
      else if analysis.disagreements.length = 0 then "conclude"
      else "continue"
    { analysis with recommendation := newRec }

/-- `ConsensusDetector.generate_final_summary`, `consensus.py` lines 251-307:
the wrap-up LLM call, falling back to `consensus.summary` when it raises. -/
def generate_final_summary (llm : Option String) (_messages : List Message)
    (_topic : String) (consensus : ConsensusResult) : String :=
  match llm with
  | some s => s
  | none => consensus.summary

/-!  ## Discussion orchestrator (`src/camel_engine/orchestrator.py`)  -/

/-- `role_creator.RoleDefinition` (pydantic model). -/
structure RoleDefinition where
  name : String
  expertise : String
  perspective : String
  model : String
  system_prompt : String
  deriving DecidableEq, Repr

/-- `orchestrator.DiscussionMessage`; `id` is `len(messages) + 1` at append
time, i.e. the 1-based sequence number. -/
structure DiscussionMessage where
  id : Nat
  role_name : String
  model : String
  content : String
  is_user : Bool
  turn_number : Nat
  deriving DecidableEq, Repr

/-- `orchestrator.Discussion` (in-memory session state). -/
structure Discussion where
  topic : String
  user_id : String
  roles : List RoleDefinition
  messages : List DiscussionMessage
  status : String
  consensus_reached : Bool
  current_turn : Nat
  deriving DecidableEq, Repr

/-- `orchestrator.DiscussionResult` (wall-clock duration dropped). -/
structure DiscussionResult where
  topic : String
  total_turns : Nat
  consensus_reached : Bool
  consensus_confidence : ℚ
  final_summary : String
  key_agreements : List String
  disagreements : List String
  messages : List DiscussionMessage
  deriving DecidableEq, Repr

/-- One entry of the chat transcript handed to the gateway. -/
structure ChatMessage where
  role : String
  content : String
  deriving DecidableEq, Repr

/-- Outcomes of the per-turn LLM calls of one discussion run.  Each component
is the result the gateway produced for the call made on the given turn
(`none` / `Except.error` = the Python call raised; the error value is
`str(e)`). -/
structure LoopOracle where
  speakerName : Nat → Option String
  utterance : Nat → Except String String
  analysis : Nat → Option AnalysisResponse
  finalAnalysis : Option AnalysisResponse
  finalSummary : Option String

/-- `DiscussionOrchestrator._fallback_speaker_selection`, `orchestrator.py`
lines 277-293: count each role's messages among the last 10 and pick the
first role (in panel order) with the minimum count.  `none` models the
`min()` / `roles[0]` exceptions on an empty panel. -/
def fallback_speaker_selection (d : Discussion) : Option RoleDefinition :=
  let recent := d.messages.drop (d.messages.length - 10)
  let count := fun (r : RoleDefinition) =>
    (recent.filter (fun m => m.role_name == r.name)).length
  match (d.roles.map count).min? with
  | none => none
  | some m => d.roles.find? (fun r => count r = m)

/-- `DiscussionOrchestrator.select_next_speaker`, `orchestrator.py` lines
212-275: the first role while at most one message exists; otherwise match the
LLM's reply (stripped) against the panel by mutual substring containment, in
panel order; on mismatch or on a raised call fall back to
least-recently-active. -/
def select_next_speaker (d : Discussion) (llm : Option String) :
    Option RoleDefinition :=
  if d.messages.length ≤ 1 then d.roles.head?
  else
    match llm with
    | some response =>
        let selected := trimStr response
        match d.roles.find? (fun r =>
            strContains selected r.name || strContains r.name selected) with
        | some r => some r
        | none => fallback_speaker_selection d
    | none => fallback_speaker_selection d

/-- The transcript built in `generate_agent_message`, `orchestrator.py` lines
310-330: the role's system prompt, then every stored message in order; user
messages become `user` entries prefixed `[User]: `, other agents' messages
become `user` entries prefixed with their name, the role's own messages become
`assistant` entries. -/
def build_context (d : Discussion) (role : RoleDefinition) : List ChatMessage :=
  { role := "system", content := role.system_prompt } ::
  d.messages.map (fun m =>
    if m.is_user then
      { role := "user", content := "[User]: " ++ m.content }
    else
      { role := if m.role_name == role.name then "assistant" else "user"
        content := "[" ++ m.role_name ++ "]: " ++ m.content })

/-- `DiscussionOrchestrator.generate_agent_message`, `orchestrator.py` lines
295-370: on a successful call the reply becomes the message body; on a raised
call the same message is built with the literal error body.  Either way the
message carries the selected role, its model, `is_user=False` and the current
turn number. -/
def generate_agent_message (d : Discussion) (role : RoleDefinition)
    (llm : Except String String) : DiscussionMessage :=
  match llm with
  | Except.ok response =>
      { id := d.messages.length + 1
        role_name := role.name
        model := role.model
        content := response
        is_user := false
        turn_number := d.current_turn }
  | Except.error e =>
      { id := d.messages.length + 1
        role_name := role.name
        model := role.model
        content := "[Error generating response: " ++ e ++ "]"
        is_user := false
        turn_number := d.current_turn }

/-- `DiscussionOrchestrator._add_message`: append and bump `updated_at`. -/
def add_message (d : Discussion) (m : DiscussionMessage) : Discussion :=
  { d with messages := d.messages ++ [m] }

/-- `DiscussionOrchestrator._add_system_message`: the turn-0 framing entry. -/
def add_system_message (d : Discussion) (content : String) : Discussion :=
  add_message d
    { id := d.messages.length + 1
      role_name := "System"
      model := "system"
      content := content
      is_user := false
      turn_number := 0 }

/-- `DiscussionOrchestrator.check_consensus`, `orchestrator.py` lines 372-390:
the evaluator input is every stored non-user message (the turn-0 system
framing message included), converted to `consensus.Message`. -/
def consensus_input (d : Discussion) : List Message :=
  (d.messages.filter (fun m => !m.is_user)).map (fun m =>
    { role_name := m.role_name, content := m.content, turn_number := m.turn_number })

/-- One iteration of the `while` loop of `run_discussion`, `orchestrator.py`
lines 170-196: bump the turn, select a speaker, generate and append the
message, and on even turns from 3 on run the consensus check.  The returned
flag is `true` when the iteration executed a `break`.  `none` models an
uncaught exception (empty panel).  The consensus check receives
`self.max_turns` (`mtSelf`), not the per-run override. -/
def discussion_step (threshold : ℚ) (mtSelf : Nat) (o : LoopOracle)
    (d0 : Discussion) : Option (Discussion × Bool) :=
  let d := { d0 with current_turn := d0.current_turn + 1 }
  match select_next_speaker d (o.speakerName d.current_turn) with
  | none => none
  | some role =>
      let msg := generate_agent_message d role (o.utterance d.current_turn)
      let d := add_message d msg
      if 3 ≤ d.current_turn ∧ d.current_turn % 2 = 0 then
        let c := check_consensus threshold (o.analysis d.current_turn)
          (consensus_input d) d.topic d.current_turn mtSelf
        if c.reached then
          some ({ d with consensus_reached := true, status := "completed" }, true)
        else if c.recommendation == "escalate" then
          some (d, true)
        else
          some (d, false)
      else
        some (d, false)

/-- The `while discussion.current_turn < max_turns` loop, fuelled: each
iteration increments `current_turn` by exactly 1, so any fuel of at least
`max_turns - current_turn` runs the loop to its real exit (see
`run_loop_fuel_irrelevant`). -/
def run_loop (threshold : ℚ) (max_turns mtSelf : Nat) (o : LoopOracle) :
    Nat → Discussion → Option Discussion
  | 0, d => some d
  | fuel + 1, d =>
      if d.current_turn < max_turns then
        match discussion_step threshold mtSelf o d with
        | none => none
        | some (d1, true) => some d1
        | some (d1, false) => run_loop threshold max_turns mtSelf o fuel d1
      else some d

/-- `DiscussionOrchestrator.generate_result`, `orchestrator.py` lines 392-432:
one more consensus check over the final transcript, then the final summary
(falling back to the check's summary), packaged up. -/
def generate_result (threshold : ℚ) (mtSelf : Nat) (o : LoopOracle)
    (d : Discussion) : DiscussionResult :=
  let c := check_consensus threshold o.finalAnalysis (consensus_input d) d.topic
    d.current_turn mtSelf
  { topic := d.topic
    total_turns := d.current_turn
    consensus_reached := c.reached
    consensus_confidence := c.confidence
    final_summary := generate_final_summary o.finalSummary (consensus_input d) d.topic c
    key_agreements := c.agreements
    disagreements := c.disagreements
    messages := d.messages }

/-- `DiscussionOrchestrator.run_discussion`, `orchestrator.py` lines 138-210:
resolve the turn cap (`max_turns or self.max_turns`, so an explicit 0 also
falls back), post the framing system message, run the loop, build the result,
and finally set the in-memory status to "completed" unconditionally.  `none`
models the loop crashing (uncaught exception). -/
def run_discussion (threshold : ℚ) (mtSelf : Nat) (mtOverride : Option Nat)
    (o : LoopOracle) (d0 : Discussion) : Option (Discussion × DiscussionResult) :=
  let mt := match mtOverride with
    | some m => if m = 0 then mtSelf else m
    | none => mtSelf
  let d1 := add_system_message d0
    ("Discussion started: " ++ d0.topic ++ "\nParticipants: " ++
      String.intercalate ", " (d0.roles.map (fun r => r.name)))
  (run_loop threshold mt mtSelf o mt d1).map (fun d2 =>
    ({ d2 with status := "completed" }, generate_result threshold mtSelf o d2))

/-- The status written to the database by `run_discussion_background`,
`discussions.py` lines 487-493. -/
def background_db_status (r : DiscussionResult) : String :=
  if r.consensus_reached then "completed" else "no_consensus"

/-!  ## Role synthesis (`src/camel_engine/role_creator.py`)  -/

/-- `role_creator.TopicAnalysis` (pydantic model). -/
structure TopicAnalysis where
  primary_domain : String
  sub_domains : List String
  complexity : Nat
  key_aspects : List String
  recommended_expert_types : List String
  deriving DecidableEq, Repr

/-- One persona record of the role-generation JSON (`name`, `expertise`,
`perspective`). -/
structure PersonaDict where
  name : String
  expertise : String
  perspective : String
  deriving DecidableEq, Repr

/-- The shapes `generate_roles` accepts from the structured call,
`role_creator.py` lines 208-218: a JSON array, a single role object, an
object with a `roles` key, or anything else (treated as no roles). -/
inductive RoleGenResponse where
  | jsonList (personas : List PersonaDict)
  | singleRole (persona : PersonaDict)
  | withRolesKey (personas : List PersonaDict)
  | otherShape
  deriving DecidableEq, Repr

/-- The hard-coded default model panel, `role_creator.py` lines 156-161. -/
def default_model_preferences : List String :=
  ["anthropic/claude-sonnet-4.5", "openai/gpt-5-chat",
   "google/gemini-2.5-pro", "deepseek/deepseek-v3.2-exp"]

/-- The `while len(model_preferences) < num_roles` padding loop,
`role_creator.py` lines 164-165: append the fixed model until long enough. -/
def pad_model_preferences (prefs : List String) (num_roles : Nat) : List String :=
  prefs ++ List.replicate (num_roles - prefs.length) "anthropic/claude-sonnet-4.5"

/-- The response-shape dispatch of `generate_roles`. -/
def extract_role_data : RoleGenResponse → List PersonaDict
  | RoleGenResponse.jsonList ps => ps
  | RoleGenResponse.singleRole p => [p]
  | RoleGenResponse.withRolesKey ps => ps
  | RoleGenResponse.otherShape => []

/-- The generic `Expert k` persona used for shortfalls and for the total
fallback, `role_creator.py` lines 233-240 and 247-256. -/
def generic_role (primary_domain : String) (models : List String) (i : Nat) :
    RoleDefinition :=
  { name := "Expert " ++ toString (i + 1)
    expertise := "General expertise in " ++ primary_domain
    perspective := "Perspective " ++ toString (i + 1)
    model := models.getD i ""
    system_prompt := "" }

/-- The `if not model_preferences` default swap of `generate_roles`,
`role_creator.py` lines 155-161: `None` and the empty list both select the
hard-coded panel. -/
def effective_model_preferences (model_preferences : Option (List String)) :
    List String :=
  match model_preferences with
  | none => default_model_preferences
  | some [] => default_model_preferences
  | some ps => ps

/-- `RoleCreator.generate_roles`, `role_creator.py` lines 136-256.  `llm` is
the structured-call outcome; `none` covers both a raised call and a malformed
persona record (missing key / pydantic error), since the whole parse sits in
the same `try`.  Personas beyond `num_roles` are dropped, shortfalls are
filled with generic `Expert k` personas; role `i` is backed by
`model_preferences[i]` after padding.  No deduplication of names happens
anywhere. -/
def generate_roles (primary_domain : String) (num_roles : Nat)
    (model_preferences : Option (List String)) (llm : Option RoleGenResponse) :
    List RoleDefinition :=
  let models := pad_model_preferences (effective_model_preferences model_preferences) num_roles
  match llm with
  | none => (List.range num_roles).map (generic_role primary_domain models)
  | some resp =>
      let role_data := extract_role_data resp
      let fromLLM := (role_data.take num_roles).enum.map (fun p =>
        { name := p.2.name
          expertise := p.2.expertise
          perspective := p.2.perspective
          model := models.getD p.1 ""
          system_prompt := "" : RoleDefinition })
      fromLLM ++
        ((List.range num_roles).drop fromLLM.length).map
          (generic_role primary_domain models)

/-- `RoleCreator.analyze_topic`, `role_creator.py` lines 78-134: structured
call parsed into `TopicAnalysis`, with the generic fallback on any failure. -/
def analyze_topic (llm : Option TopicAnalysis) : TopicAnalysis :=
  match llm with
  | some a => a
  | none =>
      { primary_domain := "general"
        sub_domains := []
        complexity := 3
        key_aspects := ["analysis", "discussion", "consensus"]
        recommended_expert_types := ["Expert 1", "Expert 2", "Expert 3", "Expert 4"] }

/-- `RoleCreator.create_system_prompt`, `role_creator.py` lines 258-287: the
fixed prompt skeleton with the persona fields and the topic templated in. -/
def create_system_prompt (role : RoleDefinition) (topic : String) : String :=
  "You are a " ++ role.name ++ " with deep expertise in " ++ role.expertise ++
  ".\n\nYour unique perspective: " ++ role.perspective ++
  "\n\nYou are participating in a multi-agent discussion about: \"" ++ topic ++
  "\"\n\nGuidelines for your participation:\n" ++
  "1. **Expertise-driven**: Contribute based on your specific knowledge and experience\n" ++
  "2. **Respectful challenge**: When you disagree, explain why from your expertise\n" ++
  "3. **Acknowledge others**: Recognize good points made by other participants\n" ++
  "4. **Seek consensus**: Work toward agreement while maintaining professional standards\n" ++
  "5. **Direct addressing**: Use @Name to address specific participants when relevant\n" ++
  "6. **Natural conversation**: Don't use \"Round X\" or structured formats - just contribute naturally\n" ++
  "\nExample interaction:\n" ++
  "\"@Pharmacologist, I appreciate your point about beta-blocker efficacy. However, from a neurological perspective, we must also consider the impact on cerebral blood flow...\"\n" ++
  "\nRemember: You are a real expert in your field. Be confident, be professional, and contribute meaningfully to reach the best solution.\n"

/-- `RoleCreator.create_roles`, `role_creator.py` lines 45-76: analyze the
topic, generate the roles, then fill in each role's system prompt. -/
def create_roles (topic : String) (num_roles : Nat)
    (model_preferences : Option (List String)) (analysisLLM : Option TopicAnalysis)
    (genLLM : Option RoleGenResponse) : List RoleDefinition :=
  let analysis := analyze_topic analysisLLM
  let roles := generate_roles analysis.primary_domain num_roles model_preferences genLLM
  roles.map (fun r => { r with system_prompt := create_system_prompt r topic })

/-!  ## LLM gateway client (`src/camel_engine/llm_provider.py`)  -/

/-- What `OpenRouterClient.chat_completion` can observe of the gateway
exchange: a network error (`httpx.RequestError`), a non-2xx status
(`raise_for_status`), a 2xx body missing `choices[0].message.content`
(`KeyError`), or a well-formed body carrying the content string. -/
inductive GatewayResponse where
  | requestError
  | statusError (code : Nat)
  | missingKeys
  | success (content : String)
  deriving DecidableEq, Repr

/-- The exception kinds `chat_completion` re-raises. -/
inductive ProviderError where
  | transport
  | httpStatus (code : Nat)
  | keyError
  deriving DecidableEq, Repr

/-- `OpenRouterClient.chat_completion`, `llm_provider.py` lines 27-102.  All
three exception kinds are logged and re-raised.  On a well-formed body the
content is returned unchanged; an empty or whitespace-only content only
triggers a log warning (lines 84-91) and is still returned. -/
def chat_completion (resp : GatewayResponse) : Except ProviderError String :=
  match resp with
  | GatewayResponse.requestError => Except.error ProviderError.transport
  | GatewayResponse.statusError code => Except.error (ProviderError.httpStatus code)
  | GatewayResponse.missingKeys => Except.error ProviderError.keyError
  | GatewayResponse.success content => Except.ok content

/-!  ## API routes (`src/api/routes/discussions.py`)  -/

/-- The row `save_message_to_db` writes, `discussions.py` lines 540-564 (the
`metadata` dict is kept as its fields of interest; note `send_message` passes
only `user_id` in it, no turn number). -/
structure DbMessageWrite where
  role_name : String
  model : String
  content : String
  is_user : Bool
  meta_user_id : Option String
  meta_turn : Option Nat
  deriving DecidableEq, Repr

/-- The `user_message` frame `send_message` broadcasts over the websocket. -/
structure UserMessageEvent where
  role_name : String
  content : String
  user_id : String
  deriving DecidableEq, Repr

/-- `send_message` (POST `/discussions/{id}/message`), `discussions.py` lines
193-245: 404 when the orchestrator does not know the discussion; otherwise a
database row is written and a `user_message` frame broadcast.  The in-memory
`Discussion` is returned as the state after the call: the handler never
touches `discussion.messages`, `current_turn` or any other field. -/
def send_message (found : Option Discussion) (content user_id : String) :
    Except Nat (Discussion × DbMessageWrite × UserMessageEvent) :=
  match found with
  | none => Except.error 404
  | some d =>
      Except.ok (d,
        { role_name := "User"
          model := "human"
          content := content
          is_user := true
          meta_user_id := some user_id
          meta_turn := none },
        { role_name := "User", content := content, user_id := user_id })

/-!  ## Concrete inputs used by the witnesses and counterexamples  -/

/-- Six messages that each carry the same sentence: every one of the 15
unordered pairs has Jaccard similarity 1. -/
def stalemateMsgs : List Message :=
  [{ role_name := "Economist", content := "We should adopt the current plan", turn_number := 1 },
   { role_name := "Engineer", content := "We should adopt the current plan", turn_number := 2 },
   { role_name := "Lawyer", content := "We should adopt the current plan", turn_number := 3 },
   { role_name := "Economist", content := "We should adopt the current plan", turn_number := 4 },
   { role_name := "Engineer", content := "We should adopt the current plan", turn_number := 5 },
   { role_name := "Lawyer", content := "We should adopt the current plan", turn_number := 6 }]

/-- A three-message input whose contents share no words at all. -/
def threeMsgs : List Message :=
  [{ role_name := "Economist", content := "alpha one", turn_number := 1 },
   { role_name := "Engineer", content := "beta two", turn_number := 2 },
   { role_name := "Lawyer", content := "gamma three", turn_number := 3 }]

/-- Two generated personas that share one name. -/
def dupPersonas : List PersonaDict :=
  [{ name := "Data Scientist", expertise := "machine learning", perspective := "models" },
   { name := "Data Scientist", expertise := "statistics", perspective := "inference" }]

/-- Four generated personas with distinct names. -/
def fourPersonas : List PersonaDict :=
  [{ name := "Architect", expertise := "systems", perspective := "structure" },
   { name := "Analyst", expertise := "data", perspective := "evidence" },
   { name := "Ethicist", expertise := "ethics", perspective := "values" },
   { name := "Operator", expertise := "operations", perspective := "practice" }]

/-- A first concrete role of a two-role panel. -/
def roleA : RoleDefinition :=
  { name := "Analyst"
    expertise := "data analysis"
    perspective := "evidence first"
    model := "openai/gpt-5-chat"
    system_prompt := "You are the Analyst." }

/-- A second concrete role of a two-role panel. -/
def roleB : RoleDefinition :=
  { name := "Engineer"
    expertise := "systems engineering"
    perspective := "practical constraints"
    model := "anthropic/claude-sonnet-4.5"
    system_prompt := "You are the Engineer." }

/-- A freshly created two-role discussion (the state `create_discussion`
leaves behind). -/
def discBase : Discussion :=
  { topic := "migraine strategies"
    user_id := "u1"
    roles := [roleA, roleB]
    messages := []
    status := "active"
    consensus_reached := false
    current_turn := 0 }

/-- Oracle for a run in which the speaker-pick call always raises and every
utterance call raises with "boom". -/
def failOracle : LoopOracle :=
  { speakerName := fun _ => none
    utterance := fun _ => Except.error "boom"
    analysis := fun _ => none
    finalAnalysis := none
    finalSummary := none }

/-- Oracle for a run in which the speaker-pick call always raises, utterances
succeed with distinct bodies, and the final consensus check reports a low
confidence. -/
def exhaustOracle : LoopOracle :=
  { speakerName := fun _ => none
    utterance := fun t => Except.ok ("claim point " ++ toString t)
    analysis := fun _ => none
    finalAnalysis := some
      { confidence := q1_5
        summary := "still apart"
        agreements := []
        disagreements := ["main issue"] }
    finalSummary := some "wrap-up text" }

/-- The same fresh two-role discussion, already marked "stopped" before the
runner begins. -/
def stoppedDisc : Discussion :=
  { topic := "migraine strategies"
    user_id := "u1"
    roles := [roleA, roleB]
    messages := []
    status := "stopped"
    consensus_reached := false
    current_turn := 0 }

/-- A discussion that already carries its framing message and one agent
message, at turn 1 — the state right after the first agent spoke. -/
def discAfterTurn1 : Discussion :=
  { topic := "migraine strategies"
    user_id := "u1"
    roles := [roleA, roleB]
    messages :=
      [{ id := 1
         role_name := "System"
         model := "system"
         content := "Discussion started: migraine strategies"
         is_user := false
         turn_number := 0 },
       { id := 2
         role_name := "Analyst"
         model := "openai/gpt-5-chat"
         content := "First, look at the evidence."
         is_user := false
         turn_number := 1 }]
    status := "active"
    consensus_reached := false
    current_turn := 1 }

/-!  ## Theorems: consensus evaluator claims  -/

/-- Claim C6: for every evaluator input whose last 6 messages contain more
than 2 unordered pairs of word-set Jaccard similarity above 0.70, the
evaluator returns the stalemate snapshot — reached=false, confidence=0.3,
recommendation=escalate, with the repeated-arguments disagreement — and the
result is the same for every possible outcome of the consensus LLM call,
i.e. the LLM is never consulted. -/
theorem C6_stalemate_short_circuit (threshold : ℚ) (llm : Option AnalysisResponse)
    (messages : List Message) (topic : String) (current_turn max_turns : Nat)
    (h6 : 6 ≤ messages.length)
    (hsim : 2 < countSimilarPairs
      ((messages.drop (messages.length - 6)).map (fun m => lowerStr m.content))) :
    check_consensus threshold llm messages topic current_turn max_turns =
      { reached := false
        confidence := q3_10
        summary := "Discussion appears stuck in circular arguments"
        agreements := []
        disagreements := ["Repeated arguments without progress"]
        recommendation := "escalate" } := by
  have h3 : ¬ (messages.length < 3) := by omega
  have hst : detect_stalemate messages = true := by
    unfold detect_stalemate
    have h6' : ¬ (messages.length < 6) := by omega
    simp only [h6', if_false]
    exact decide_eq_true hsim
  unfold check_consensus
  simp [h3, hst]

/-- Claim C6, witnessed on a concrete stalemated transcript and an LLM
outcome that would have reported full consensus. -/
theorem C6_stalemate_short_circuit_witness :
    6 ≤ stalemateMsgs.length ∧
    check_consensus q17_20
        (some { confidence := 1, summary := "all agree", agreements := ["x"], disagreements := [] })
        stalemateMsgs "topic" 4 20 =
      { reached := false
        confidence := q3_10
        summary := "Discussion appears stuck in circular arguments"
        agreements := []
        disagreements := ["Repeated arguments without progress"]
        recommendation := "escalate" } :=
  ⟨by decide,
   C6_stalemate_short_circuit q17_20 _ stalemateMsgs "topic" 4 20 (by decide) (by decide)⟩

/-- Claim C7 counterexample: with threshold 0 (a value the claim admits) and
an input below the 3-message minimum, the snapshot carries confidence 0 ≥ 0
yet reached = false, so reached is not equivalent to confidence ≥ θ. -/
theorem C7_threshold_law_counterexample :
    ¬ (((check_consensus 0 none [] "topic" 0 20).reached = true) ↔
        (0 : ℚ) ≤ (check_consensus 0 none [] "topic" 0 20).confidence) := by
  decide

/-- Claim C7 as amended: the equivalence reached ⇔ confidence ≥ θ holds for
every snapshot the evaluator returns whenever θ > 1/2 — in particular at the
default 0.85.  (For θ ≤ 1/2 the fixed-confidence snapshots 0.0 / 0.3 / 0.5 of
the insufficient-input, stalemate and LLM-failure paths report reached=false
even when their confidence reaches θ.) -/
theorem C7_threshold_law_amended (threshold : ℚ) (hθ : q1_2 < threshold)
    (llm : Option AnalysisResponse) (messages : List Message) (topic : String)
    (current_turn max_turns : Nat) :
    ((check_consensus threshold llm messages topic current_turn max_turns).reached = true) ↔
      threshold ≤ (check_consensus threshold llm messages topic current_turn max_turns).confidence := by
  have h0 : (0 : ℚ) < q1_2 := by decide
  have h310 : q3_10 < q1_2 := by decide
  cases llm with
  | none =>
      unfold check_consensus analyze_consensus fallback_consensus
      split_ifs <;> simp <;> linarith
  | some r =>
      unfold check_consensus analyze_consensus fallback_consensus
      by_cases hr : 0 ≤ r.confidence ∧ r.confidence ≤ 1
      · simp only [if_pos hr]
        split_ifs <;> simp <;> try linarith
      · simp only [if_neg hr]
        split_ifs <;> simp <;> linarith

/-- Claim C7 amended, witnessed at the default threshold 0.85 on a concrete
successful analysis outcome. -/
theorem C7_threshold_law_amended_witness :
    q1_2 < q17_20 ∧
    (((check_consensus q17_20
        (some { confidence := q1_5, summary := "far apart", agreements := [], disagreements := ["d"] })
        threeMsgs "topic" 4 20).reached = true) ↔
      q17_20 ≤ (check_consensus q17_20
        (some { confidence := q1_5, summary := "far apart", agreements := [], disagreements := ["d"] })
        threeMsgs "topic" 4 20).confidence) :=
  ⟨by decide,
   C7_threshold_law_amended q17_20 (by decide) _ threeMsgs "topic" 4 20⟩

/-- Claim C8 counterexample: the consensus-analysis call fails (raises) on a
3-message input at the turn cap with the default threshold: the evaluator
returns the neutral reached/confidence but recommendation "conclude", not
"continue" as the claim states. -/
theorem C8_neutral_snapshot_counterexample :
    (check_consensus q17_20 none threeMsgs "topic" 20 20).reached = false ∧
    (check_consensus q17_20 none threeMsgs "topic" 20 20).confidence = q1_2 ∧
    (check_consensus q17_20 none threeMsgs "topic" 20 20).recommendation = "conclude" ∧
    (check_consensus q17_20 none threeMsgs "topic" 20 20).recommendation ≠ "continue" := by
  decide

/-- Claim C8 as amended: when the consensus-analysis LLM call fails on an
input that passes the 3-message guard and the stalemate check, the evaluator
(a total function: the failure never propagates) returns the neutral
snapshot reached=false, confidence=0.5 with the fallback summary and the
"Analysis error" disagreement; its recommendation is then recomputed by the
thresholding step — "continue" only when 0.5 < θ and the turn cap has not
been hit, "conclude" when θ ≤ 0.5 or current_turn ≥ max_turns. -/
theorem C8_neutral_snapshot_amended (threshold : ℚ) (messages : List Message)
    (topic : String) (current_turn max_turns : Nat)
    (h3 : 3 ≤ messages.length) (hst : detect_stalemate messages = false) :
    check_consensus threshold none messages topic current_turn max_turns =
      { reached := false
        confidence := q1_2
        summary := "Unable to analyze consensus reliably"
        agreements := []
        disagreements := ["Analysis error"]
        recommendation :=
          if threshold ≤ q1_2 ∨ max_turns ≤ current_turn then "conclude" else "continue" } := by
  have h3' : ¬ (messages.length < 3) := by omega
  unfold check_consensus analyze_consensus fallback_consensus
  by_cases hθ : threshold ≤ q1_2 <;> by_cases hct : max_turns ≤ current_turn <;>
    simp [h3', hst, hθ, hct]

/-- Claim C8 amended, witnessed away from the turn cap: the recommendation is
"continue" there. -/
theorem C8_neutral_snapshot_amended_witness :
    3 ≤ threeMsgs.length ∧ detect_stalemate threeMsgs = false ∧
    check_consensus q17_20 none threeMsgs "topic" 4 20 =
      { reached := false
        confidence := q1_2
        summary := "Unable to analyze consensus reliably"
        agreements := []
        disagreements := ["Analysis error"]
        recommendation :=
          if q17_20 ≤ q1_2 ∨ 20 ≤ 4 then "conclude" else "continue" } :=
  ⟨by decide, by decide,
   C8_neutral_snapshot_amended q17_20 threeMsgs "topic" 4 20 (by decide) (by decide)⟩

/-!  ## Theorems: gateway client claim  -/

/-- Claim C9 counterexample: a well-formed gateway body whose content is the
empty string (or whitespace only) is returned by `chat_completion` as a
successful result — no decode error is raised for empty required content,
only a log warning. -/
theorem C9_empty_content_counterexample :
    chat_completion (GatewayResponse.success "") = Except.ok "" ∧
    chat_completion (GatewayResponse.success "   ") = Except.ok "   " :=
  ⟨rfl, rfl⟩

/-- Claim C9 as amended: `chat_completion` surfaces transport, HTTP-status
and missing-key failures as errors, and every successful result is exactly
the content of a well-formed gateway body — including the empty or
whitespace-only content, which is passed through unchanged (with a warning
logged) rather than raised as a decode error. -/
theorem C9_content_passthrough_amended (resp : GatewayResponse) (c : String)
    (h : chat_completion resp = Except.ok c) : resp = GatewayResponse.success c := by
  cases resp <;> simp_all [chat_completion]

/-- Claim C9 amended, witnessed on the empty content. -/
theorem C9_content_passthrough_amended_witness :
    chat_completion (GatewayResponse.success "") = Except.ok "" ∧
    GatewayResponse.success "" = GatewayResponse.success "" :=
  ⟨rfl, C9_content_passthrough_amended (GatewayResponse.success "") "" rfl⟩

/-!  ## Theorems: role synthesis claims  -/

/-- Reading a list off by indices: mapping `getD` over `range n` is `take n`
when `n` is within bounds. -/
theorem getD_range_map {α : Type} (l : List α) (d : α) :
    ∀ n, n ≤ l.length → (List.range n).map (fun i => l.getD i d) = l.take n := by
  intro n
  induction n with
  | zero => simp
  | succ k ih =>
      intro h
      rw [List.range_succ, List.map_append, ih (by omega)]
      have hk : k < l.length := by omega
      rw [List.take_succ]
      simp [List.getD_eq_getElem?_getD, List.getElem?_eq_getElem hk]

/-- The models attached by `generate_roles` are exactly the first `num_roles`
entries of the padded preference list, whatever the generation call
returned. -/
theorem map_model_generate_roles (domain : String) (num : Nat)
    (mp : Option (List String)) (llm : Option RoleGenResponse) :
    (generate_roles domain num mp llm).map (fun r => r.model) =
      (pad_model_preferences (effective_model_preferences mp) num).take num := by
  have hlen : num ≤ (pad_model_preferences (effective_model_preferences mp) num).length := by
    simp only [pad_model_preferences, List.length_append, List.length_replicate]
    omega
  cases llm with
  | none =>
      simp only [generate_roles, List.map_map]
      have hcomp : ((fun r : RoleDefinition => r.model) ∘
          generic_role domain (pad_model_preferences (effective_model_preferences mp) num)) =
          (fun i => (pad_model_preferences (effective_model_preferences mp) num).getD i "") := rfl
      rw [hcomp, getD_range_map _ _ num hlen]
  | some resp =>
      simp only [generate_roles, List.map_append, List.map_map, List.length_map,
        List.enum_length]
      have hcomp1 : ((fun r : RoleDefinition => r.model) ∘ (fun p : Nat × PersonaDict =>
          ({ name := p.2.name, expertise := p.2.expertise, perspective := p.2.perspective,
             model := (pad_model_preferences (effective_model_preferences mp) num).getD p.1 ""
             system_prompt := "" } : RoleDefinition))) =
          ((fun i => (pad_model_preferences (effective_model_preferences mp) num).getD i "") ∘
            Prod.fst) := rfl
      have hcomp2 : ((fun r : RoleDefinition => r.model) ∘
          generic_role domain (pad_model_preferences (effective_model_preferences mp) num)) =
          (fun i => (pad_model_preferences (effective_model_preferences mp) num).getD i "") := rfl
      rw [hcomp1, hcomp2, ← List.map_map, List.enum_map_fst, ← List.map_append]
      have hk : (List.take num (extract_role_data resp)).length ≤ num := by
        simp [List.length_take]
      have hjoin : List.range ((List.take num (extract_role_data resp)).length) ++
          (List.range num).drop ((List.take num (extract_role_data resp)).length) =
          List.range num := by
        conv_rhs => rw [← List.take_append_drop
          ((List.take num (extract_role_data resp)).length) (List.range num)]
        rw [List.take_range, Nat.min_eq_left hk]
      rw [hjoin, getD_range_map _ _ num hlen]

/-- `generate_roles` always returns exactly `num_roles` roles: the generated
personas are truncated and the remainder is filled with generic personas. -/
theorem length_generate_roles (domain : String) (num : Nat)
    (mp : Option (List String)) (llm : Option RoleGenResponse) :
    (generate_roles domain num mp llm).length = num := by
  cases llm with
  | none => simp [generate_roles]
  | some resp =>
      have hk : (List.take num (extract_role_data resp)).length ≤ num := by
        simp [List.length_take]
      simp only [generate_roles, List.length_append, List.length_map, List.enum_length,
        List.length_drop, List.length_range]
      omega

/-- The names `generate_roles` returns: the generated names verbatim (no
deduplication), then the generic `Expert k` fill. -/
theorem map_name_generate_roles (domain : String) (num : Nat)
    (mp : Option (List String)) (ps : List PersonaDict) :
    (generate_roles domain num mp (some (RoleGenResponse.jsonList ps))).map (fun r => r.name) =
      (ps.take num).map (fun p => p.name) ++
        ((List.range num).drop (ps.take num).length).map
          (fun i => "Expert " ++ toString (i + 1)) := by
  simp only [generate_roles, extract_role_data, List.map_append, List.map_map,
    List.length_map, List.enum_length]
  have hcomp : ((fun r : RoleDefinition => r.name) ∘ (fun p : Nat × PersonaDict =>
      ({ name := p.2.name, expertise := p.2.expertise, perspective := p.2.perspective,
         model := (pad_model_preferences (effective_model_preferences mp) num).getD p.1 ""
         system_prompt := "" } : RoleDefinition))) =
      ((fun p : PersonaDict => p.name) ∘ Prod.snd) := rfl
  have hcomp2 : ((fun r : RoleDefinition => r.name) ∘
      generic_role domain (pad_model_preferences (effective_model_preferences mp) num)) =
      (fun i => "Expert " ++ toString (i + 1)) := rfl
  rw [hcomp, hcomp2, ← List.map_map, List.enum_map_snd]

/-- Claim C4 counterexample: when the generator returns two personas with the
same name for a valid 2-agent request, role synthesis keeps both names as
they are — the returned panel has colliding names and no disambiguating
suffix is appended anywhere. -/
theorem C4_unique_names_counterexample :
    ((create_roles "topic one for the panel" 2 none none
        (some (RoleGenResponse.jsonList dupPersonas))).map (fun r => r.name)) =
      ["Data Scientist", "Data Scientist"] ∧
    ¬ ((create_roles "topic one for the panel" 2 none none
        (some (RoleGenResponse.jsonList dupPersonas))).map (fun r => r.name)).Nodup := by
  constructor
  · rfl
  · decide

/-- Claim C4 as amended: for every create input, role synthesis returns a
panel of exactly `num_roles` roles — excess generated personas are truncated
and shortfalls are filled with generic `Expert k` personas — but the
generated names are kept verbatim, in order, with no deduplication: a name
collision in the generated personas survives into the panel (no numeric
suffix exists in the code). -/
theorem C4_panel_cardinality_amended (topic : String) (num_roles : Nat)
    (mp : Option (List String)) (aLLM : Option TopicAnalysis) (ps : List PersonaDict) :
    (create_roles topic num_roles mp aLLM (some (RoleGenResponse.jsonList ps))).length
        = num_roles ∧
    (create_roles topic num_roles mp aLLM
        (some (RoleGenResponse.jsonList ps))).map (fun r => r.name) =
      (ps.take num_roles).map (fun p => p.name) ++
        ((List.range num_roles).drop (ps.take num_roles).length).map
          (fun i => "Expert " ++ toString (i + 1)) := by
  constructor
  · simp only [create_roles, List.length_map]
    exact length_generate_roles _ _ _ _
  · simp only [create_roles, List.map_map]
    have hcomp : ((fun r : RoleDefinition => r.name) ∘ (fun r : RoleDefinition =>
        { r with system_prompt := create_system_prompt r topic })) =
        (fun r : RoleDefinition => r.name) := rfl
    rw [hcomp]
    exact map_name_generate_roles _ _ _ _

/-- Claim C5 counterexample: with preferred models ["m1", "m2"] and 4 roles,
cycling would back role 2 with m1 and role 3 with m2; the code instead pads
the list with the fixed model, so roles 2 and 3 both get
anthropic/claude-sonnet-4.5.  Likewise, with no preference and 6 roles,
cycling the default panel would back role 5 with its second entry; the code
again pads with the fixed model. -/
theorem C5_model_cycling_counterexample :
    ((generate_roles "general" 4 (some ["m1", "m2"])
        (some (RoleGenResponse.jsonList fourPersonas))).map (fun r => r.model)) =
      ["m1", "m2", "anthropic/claude-sonnet-4.5", "anthropic/claude-sonnet-4.5"] ∧
    ((generate_roles "general" 4 (some ["m1", "m2"])
        (some (RoleGenResponse.jsonList fourPersonas))).map (fun r => r.model)).getD 2 ""
      ≠ ["m1", "m2"].getD (2 % 2) "" ∧
    ((generate_roles "general" 6 none none).map (fun r => r.model)).getD 5 ""
      = "anthropic/claude-sonnet-4.5" ∧
    ((generate_roles "general" 6 none none).map (fun r => r.model)).getD 5 ""
      ≠ default_model_preferences.getD (5 % 4) "" := by
  refine ⟨rfl, ?_, rfl, ?_⟩ <;> decide

/-- Claim C5 as amended: backing models are assigned positionally from the
preference list padded with the fixed model anthropic/claude-sonnet-4.5 up
to `num_roles` — no wrap-around: role `i` beyond the supplied list always
receives the fixed padding model; with no (or empty) preferences the same
padding is applied to the hard-coded default panel. -/
theorem C5_model_padding_amended (domain : String) (num : Nat) (prefs : List String)
    (llm : Option RoleGenResponse) (hne : prefs ≠ []) :
    (generate_roles domain num (some prefs) llm).map (fun r => r.model) =
      (prefs ++ List.replicate (num - prefs.length) "anthropic/claude-sonnet-4.5").take num ∧
    (generate_roles domain num none llm).map (fun r => r.model) =
      (default_model_preferences ++
        List.replicate (num - default_model_preferences.length)
          "anthropic/claude-sonnet-4.5").take num := by
  constructor
  · have heff : effective_model_preferences (some prefs) = prefs := by
      cases prefs with
      | nil => exact absurd rfl hne
      | cons a l => rfl
    have h := map_model_generate_roles domain num (some prefs) llm
    rw [heff, pad_model_preferences] at h
    exact h
  · have h := map_model_generate_roles domain num none llm
    rw [show effective_model_preferences none = default_model_preferences from rfl,
      pad_model_preferences] at h
    exact h

/-- Claim C5 amended, witnessed at 3 roles over a 2-model preference list:
the third role gets the fixed padding model. -/
theorem C5_model_padding_amended_witness :
    (["m1", "m2"] : List String) ≠ [] ∧
    ((generate_roles "general" 3 (some ["m1", "m2"]) none).map (fun r => r.model) =
      (["m1", "m2"] ++
        List.replicate (3 - (["m1", "m2"] : List String).length)
          "anthropic/claude-sonnet-4.5").take 3 ∧
     (generate_roles "general" 3 none none).map (fun r => r.model) =
      (default_model_preferences ++
        List.replicate (3 - default_model_preferences.length)
          "anthropic/claude-sonnet-4.5").take 3) :=
  ⟨by decide, C5_model_padding_amended "general" 3 ["m1", "m2"] none (by decide)⟩

/-!  ## Theorems: orchestrator claims  -/

/-- A successful loop iteration advances `current_turn` by exactly 1 (each
branch of `discussion_step` carries the incremented turn). -/
theorem discussion_step_current_turn (threshold : ℚ) (mtSelf : Nat) (o : LoopOracle)
    (d : Discussion) (p : Discussion × Bool)
    (h : discussion_step threshold mtSelf o d = some p) :
    p.1.current_turn = d.current_turn + 1 := by
  unfold discussion_step at h
  dsimp only at h
  cases hs : select_next_speaker { d with current_turn := d.current_turn + 1 }
      (o.speakerName (d.current_turn + 1)) with
  | none => rw [hs] at h; exact absurd h (by simp)
  | some role =>
      rw [hs] at h
      dsimp only at h
      split_ifs at h <;> (cases h; rfl)

/-- The fuelled loop is the real `while` loop: any fuel of at least
`max_turns - current_turn` gives the same result, because each iteration
advances `current_turn` by 1 and the loop condition is re-checked first.  In
particular `run_discussion`, which supplies fuel `max_turns`, runs the loop
to its real exit. -/
theorem run_loop_fuel_irrelevant (threshold : ℚ) (max_turns mtSelf : Nat)
    (o : LoopOracle) :
    ∀ fuel1 fuel2 d, max_turns - d.current_turn ≤ fuel1 →
      max_turns - d.current_turn ≤ fuel2 →
      run_loop threshold max_turns mtSelf o fuel1 d =
        run_loop threshold max_turns mtSelf o fuel2 d := by
  intro fuel1
  induction fuel1 with
  | zero =>
      intro fuel2 d h1 h2
      have hge : ¬ d.current_turn < max_turns := by omega
      cases fuel2 with
      | zero => rfl
      | succ f2 => simp [run_loop, hge]
  | succ f1 ih =>
      intro fuel2 d h1 h2
      by_cases hlt : d.current_turn < max_turns
      · cases fuel2 with
        | zero => omega
        | succ f2 =>
            simp only [run_loop, if_pos hlt]
            cases hstep : discussion_step threshold mtSelf o d with
            | none => rfl
            | some p =>
                obtain ⟨d1, brk⟩ := p
                cases brk with
                | true => rfl
                | false =>
                    have hct : d1.current_turn = d.current_turn + 1 :=
                      discussion_step_current_turn threshold mtSelf o d (d1, false) hstep
                    exact ih f2 d1 (by omega) (by omega)
      · cases fuel2 with
        | zero => simp [run_loop, hlt]
        | succ f2 => simp [run_loop, hlt]

/-- Every non-user message stored in a discussion reaches the transcript
handed to any later speaker, as a `[AuthorName]: body` entry. -/
theorem content_mem_build_context (d : Discussion) (m : DiscussionMessage)
    (hm : m ∈ d.messages) (hu : m.is_user = false) (r2 : RoleDefinition) :
    ("[" ++ m.role_name ++ "]: " ++ m.content) ∈
      (build_context d r2).map (fun cm => cm.content) := by
  unfold build_context
  simp only [List.map_cons, List.map_map]
  apply List.mem_cons_of_mem
  refine List.mem_map.mpr ⟨m, hm, ?_⟩
  simp [hu]

/-- Every non-user message stored in a discussion reaches the consensus
evaluator's input. -/
theorem mem_consensus_input (d : Discussion) (m : DiscussionMessage)
    (hm : m ∈ d.messages) (hu : m.is_user = false) :
    ({ role_name := m.role_name, content := m.content, turn_number := m.turn_number } :
      Message) ∈ consensus_input d := by
  unfold consensus_input
  exact List.mem_map.mpr ⟨m, List.mem_filter.mpr ⟨hm, by simp [hu]⟩, rfl⟩

/-- Claim C10: when the utterance LLM call of a turn fails, the turn neither
raises nor is skipped — a normal agent message, attributed to the selected
role and its backing model and carrying the incremented turn number, is
appended with the literal body "[Error generating response: <error>]"; that
message then appears in the transcript built for any later speaker and in the
consensus evaluator's input. -/
theorem C10_error_turn_message (threshold : ℚ) (mtSelf : Nat) (o : LoopOracle)
    (d : Discussion) (role : RoleDefinition) (e : String)
    (hsel : select_next_speaker { d with current_turn := d.current_turn + 1 }
      (o.speakerName (d.current_turn + 1)) = some role)
    (hutt : o.utterance (d.current_turn + 1) = Except.error e) :
    ∃ d1 brk, discussion_step threshold mtSelf o d = some (d1, brk) ∧
      d1.messages = d.messages ++
        [{ id := d.messages.length + 1
           role_name := role.name
           model := role.model
           content := "[Error generating response: " ++ e ++ "]"
           is_user := false
           turn_number := d.current_turn + 1 }] ∧
      (∀ r2 : RoleDefinition,
        ("[" ++ role.name ++ "]: " ++ ("[Error generating response: " ++ e ++ "]")) ∈
          (build_context d1 r2).map (fun cm => cm.content)) ∧
      ({ role_name := role.name
         content := "[Error generating response: " ++ e ++ "]"
         turn_number := d.current_turn + 1 } : Message) ∈ consensus_input d1 := by
  have hmain : ∀ d1 : Discussion, d1.messages = d.messages ++
      [{ id := d.messages.length + 1
         role_name := role.name
         model := role.model
         content := "[Error generating response: " ++ e ++ "]"
         is_user := false
         turn_number := d.current_turn + 1 }] →
      (∀ r2 : RoleDefinition,
        ("[" ++ role.name ++ "]: " ++ ("[Error generating response: " ++ e ++ "]")) ∈
          (build_context d1 r2).map (fun cm => cm.content)) ∧
      ({ role_name := role.name
         content := "[Error generating response: " ++ e ++ "]"
         turn_number := d.current_turn + 1 } : Message) ∈ consensus_input d1 := by
    intro d1 h1
    have hm : ({ id := d.messages.length + 1
                 role_name := role.name
                 model := role.model
                 content := "[Error generating response: " ++ e ++ "]"
                 is_user := false
                 turn_number := d.current_turn + 1 } : DiscussionMessage) ∈ d1.messages := by
      rw [h1]
      exact List.mem_append_right _ (List.mem_singleton.mpr rfl)
    exact ⟨fun r2 => content_mem_build_context d1 _ hm rfl r2,
           mem_consensus_input d1 _ hm rfl⟩
  unfold discussion_step
  dsimp only
  rw [hsel]
  unfold generate_agent_message
  dsimp only
  rw [hutt]
  dsimp only [add_message]
  split_ifs <;>
    exact ⟨_, _, rfl, rfl, (hmain _ rfl).1, (hmain _ rfl).2⟩

/-- Claim C10, witnessed on the first turn of a fresh two-role discussion
whose utterance call raises "boom". -/
theorem C10_error_turn_message_witness :
    select_next_speaker { discBase with current_turn := discBase.current_turn + 1 }
        (failOracle.speakerName (discBase.current_turn + 1)) = some roleA ∧
    failOracle.utterance (discBase.current_turn + 1) = Except.error "boom" ∧
    (∃ d1 brk, discussion_step q17_20 20 failOracle discBase = some (d1, brk) ∧
      d1.messages = discBase.messages ++
        [{ id := discBase.messages.length + 1
           role_name := roleA.name
           model := roleA.model
           content := "[Error generating response: " ++ "boom" ++ "]"
           is_user := false
           turn_number := discBase.current_turn + 1 }] ∧
      (∀ r2 : RoleDefinition,
        ("[" ++ roleA.name ++ "]: " ++ ("[Error generating response: " ++ "boom" ++ "]")) ∈
          (build_context d1 r2).map (fun cm => cm.content)) ∧
      ({ role_name := roleA.name
         content := "[Error generating response: " ++ "boom" ++ "]"
         turn_number := discBase.current_turn + 1 } : Message) ∈ consensus_input d1) :=
  ⟨by decide, rfl,
   C10_error_turn_message q17_20 20 failOracle discBase roleA "boom" (by decide) rfl⟩

/-- Claim C1 counterexample: a run with `max_turns = 3` on a fresh two-role
discussion whose consensus never reaches the default threshold ends by turn
exhaustion with `consensus_reached = false` (and database status
no_consensus), yet the in-memory discussion status — the one `GET
/discussions/id` serves while the discussion is registered — is "completed",
not "no_consensus" as the claim requires. -/
theorem C1_terminal_status_counterexample :
    (run_discussion q17_20 3 none exhaustOracle discBase).map
      (fun p => (p.1.status, p.1.current_turn, p.1.consensus_reached,
        p.2.consensus_reached, background_db_status p.2)) =
      some ("completed", 3, false, false, "no_consensus") := by
  decide

/-- Claim C1 as amended: after a run that ends without an uncaught error, the
in-memory discussion status is "completed" unconditionally, however the loop
ended; the database status written by the background task is "completed"
exactly when the post-loop final consensus check reported reached, and
"no_consensus" otherwise — the cause of loop exit (convergence, exhaustion,
stalemate) does not enter either status. -/
theorem C1_terminal_status_amended (threshold : ℚ) (mtSelf : Nat) (mtO : Option Nat)
    (o : LoopOracle) (d0 d1 : Discussion) (r : DiscussionResult)
    (h : run_discussion threshold mtSelf mtO o d0 = some (d1, r)) :
    d1.status = "completed" ∧
    (background_db_status r = "completed" ↔ r.consensus_reached = true) := by
  unfold run_discussion at h
  rcases Option.map_eq_some'.mp h with ⟨d2, _, hf⟩
  cases hf
  refine ⟨rfl, ?_⟩
  unfold background_db_status
  by_cases hr : (generate_result threshold mtSelf o d2).consensus_reached <;>
    simp [hr]

/-- Claim C1 amended, witnessed on the concrete exhausted run. -/
theorem C1_terminal_status_amended_witness :
    ∃ d1 r, run_discussion q17_20 3 none exhaustOracle discBase = some (d1, r) ∧
      (d1.status = "completed" ∧
        (background_db_status r = "completed" ↔ r.consensus_reached = true)) := by
  cases hrun : run_discussion q17_20 3 none exhaustOracle discBase with
  | none => exact absurd hrun (by decide)
  | some p =>
      obtain ⟨d1, r⟩ := p
      exact ⟨d1, r, rfl,
        C1_terminal_status_amended q17_20 3 none exhaustOracle discBase d1 r hrun⟩


/-- Claim C2: the turn loop never consults the discussion status.  Concrete
run: on a discussion whose status is already "stopped" with no message stored
(stop-time sequence 0), `run_discussion` still appends the framing message
and two agent messages (sequences 1..3, final turn 2) and then overwrites the
status with "completed".  Together with the absence of any
`stop_discussion` method on the orchestrator (the route and the unit tests
call one), this exhibits the missing stop machinery. -/
theorem C2_stop_not_observed :
    (run_discussion q17_20 2 none exhaustOracle stoppedDisc).map
      (fun p => (p.1.messages.length, p.1.status, p.1.current_turn,
        (p.1.messages.map (fun m => m.id)))) =
      some (3, "completed", 2, [1, 2, 3]) := by
  decide

/-- Claim C3: the `send_message` route accepts the user message, writes a
database row (with author "User", is_user set, and no turn number in the
metadata) and broadcasts a `user_message` frame — but it never appends
anything to the in-memory discussion: the state after the call is the very
same `Discussion`, so the transcript built for the next agent utterance does
not contain the user message. -/
theorem C3_user_message_not_in_transcript :
    send_message (some discAfterTurn1) "Please consider cost-effectiveness." "u1" =
      Except.ok (discAfterTurn1,
        { role_name := "User"
          model := "human"
          content := "Please consider cost-effectiveness."
          is_user := true
          meta_user_id := some "u1"
          meta_turn := none },
        { role_name := "User"
          content := "Please consider cost-effectiveness."
          user_id := "u1" }) ∧
    "[User]: Please consider cost-effectiveness." ∉
      (build_context discAfterTurn1 roleB).map (fun cm => cm.content) := by
  exact ⟨rfl, by decide⟩
